import Mathlib

/-!
Verification development for the MLB inning analytics core
(mlb_inning_analytics_core.py): a shallow embedding of the
metric-aggregation, confidence-classification, recommendation and
parlay-ranking engine, together with proofs of its key properties.

Dates are modelled as natural numbers (only their ordering matters),
game identifiers as naturals, monetary-free statistics as naturals,
and every Python float ratio as a rational number: the source only
ever forms quotients of integer counts scaled by 100, guarded by
explicit zero-denominator checks, so rational arithmetic is exact.
-/

namespace MLB

/-! ### Confidence weight maps (module-level dicts, source lines 229-231) -/

def confidence_map : List (String × Rat) :=
  [("Low", 1), ("Moderate", 2), ("High", 3), ("HIGH OVER", 4)]

def nrfi_yrfi_map : List (String × Rat) :=
  [("Low", 1), ("Moderate (leaning NRFI)", 5/2), ("High (NRFI)", 3),
   ("Moderate (leaning YRFI)", 5/2), ("High (YRFI)", 3)]

def over_under_map : List (String × Rat) :=
  [("Low", 1), ("Moderate (leaning Under)", 5/2), ("High (Under)", 3),
   ("Moderate (leaning Over)", 5/2), ("High (Over)", 3)]

/-- Python `d.get(k, 0)` on an association list of label weights. -/
def mapGet : List (String × Rat) → String → Rat
  | [], _ => 0
  | p :: ps, k => if p.1 = k then p.2 else mapGet ps k

/-! ### Confidence classifiers -/

/-- `calculate_confidence_level` (source lines 3400-3419): threshold pair plus
a comparison direction; any other direction string falls through to "Low". -/
def calculate_confidence_level (value : Rat) (high moderate : Rat)
    (comparison_type : String) : String :=
  if comparison_type = "greater" then
    if high ≤ value then "High"
    else if moderate ≤ value then "Moderate"
    else "Low"
  else if comparison_type = "less" then
    if value ≤ high then "High"
    else if value ≤ moderate then "Moderate"
    else "Low"
  else "Low"

/-- `calculate_overall_nrfi_yrfi_confidence` (source lines 2000-2025). -/
def calculate_overall_nrfi_yrfi_confidence (pitcher_nrfi_pct opponent_nrfi_pct : Rat)
    (overall_run_prevention_conf : String) : String :=
  let run_prevention_score := mapGet confidence_map overall_run_prevention_conf
  if 70 ≤ pitcher_nrfi_pct ∧ 70 ≤ opponent_nrfi_pct ∧ 2 ≤ run_prevention_score then
    "High (NRFI)"
  else if 60 ≤ pitcher_nrfi_pct ∧ 60 ≤ opponent_nrfi_pct ∧ 1 ≤ run_prevention_score then
    "Moderate (leaning NRFI)"
  else
    let pitcher_yrfi_pct := 100 - pitcher_nrfi_pct
    let opponent_yrfi_pct := 100 - opponent_nrfi_pct
    if 70 ≤ pitcher_yrfi_pct ∧ 70 ≤ opponent_yrfi_pct then "High (YRFI)"
    else if 60 ≤ pitcher_yrfi_pct ∧ 60 ≤ opponent_yrfi_pct then "Moderate (leaning YRFI)"
    else "Low"

/-- `calculate_overall_nrhi_confidence` (source lines 2028-2041). -/
def calculate_overall_nrhi_confidence (pitcher_nrhi_pct batting_nrhi_pct : Rat) : String :=
  if 70 ≤ pitcher_nrhi_pct ∧ 70 ≤ batting_nrhi_pct then "High (Under)"
  else if 60 ≤ pitcher_nrhi_pct ∧ 60 ≤ batting_nrhi_pct then "Moderate (leaning Under)"
  else if pitcher_nrhi_pct ≤ 30 ∧ batting_nrhi_pct ≤ 30 then "High (Over)"
  else if pitcher_nrhi_pct ≤ 40 ∧ batting_nrhi_pct ≤ 40 then "Moderate (leaning Over)"
  else "Neutral"

/-- `calculate_overall_over_under_confidence` (source lines 2044-2064). -/
def calculate_overall_over_under_confidence (pitcher_conf opponent_conf : String) : String :=
  let pitcher_score := mapGet confidence_map pitcher_conf
  let opponent_score := mapGet confidence_map opponent_conf
  if pitcher_score = 3 ∧ opponent_score = 1 then "High (Under)"
  else if 2 ≤ pitcher_score ∧ opponent_score ≤ 2 then "Moderate (leaning Under)"
  else if pitcher_score = 1 ∧ opponent_score = 3 then "High (Over)"
  else if pitcher_score ≤ 2 ∧ 2 ≤ opponent_score then "Moderate (leaning Over)"
  else "Neutral"

/-! ### Recommendation derivation (bet columns, source lines 2233-2238 and 2324-2365) -/

/-- `PITCHER RUNS BET` (source lines 2233-2235). -/
def pitcher_runs_bet (x : String) : String :=
  if x = "High (NRFI)" then "Under Runs Bet"
  else if x = "High (YRFI)" then "Over Runs Bet"
  else "Neutral"

/-- `OPPONENT RUNS BET` (source lines 2236-2238). -/
def opponent_runs_bet (x : String) : String :=
  if x = "High (YRFI)" then "Over Runs Bet"
  else if x = "High (NRFI)" then "Under Runs Bet"
  else "Neutral"

/-- The `PITCHER {METRIC} BET` columns (source lines 2324-2326, 2330-2332,
2336-2338, 2342-2344, 2348-2350, 2354-2356, 2360-2362): one identical lambda
per metric, abstracted here over the metric name. -/
def pitcher_over_under_bet (metric : String) (x : String) : String :=
  if x = "High (Under)" then "Under " ++ metric ++ " Bet"
  else if x = "High (Over)" then "Over " ++ metric ++ " Bet"
  else "Neutral"

/-- The `OPPONENT {METRIC} BET` columns (source lines 2327-2329, 2333-2335,
2339-2341, 2345-2347, 2351-2353, 2357-2359, 2363-2365). -/
def opponent_over_under_bet (metric : String) (x : String) : String :=
  if x = "High (Over)" then "Over " ++ metric ++ " Bet"
  else if x = "High (Under)" then "Under " ++ metric ++ " Bet"
  else "Neutral"

/-- The seven Over/Under metric names the bet lambdas are instantiated at. -/
def over_under_bet_metrics : List String :=
  ["Hits", "Walks", "Singles", "Doubles", "Triples", "Homers", "Total Bases"]

/-! ### Parlay ranking (`generate_ranked_parlays`, source lines 541-646) -/

/-- The report-row fields `generate_ranked_parlays` reads. -/
structure ReportRow where
  game : String
  pitcher : String
  overall_k_confidence : String
  overall_nrfi_yrfi_confidence : String
  overall_hits_confidence : String
  overall_walks_confidence : String
  overall_singles_confidence : String
  overall_doubles_confidence : String
  overall_triples_confidence : String
  overall_homers_confidence : String
  overall_total_bases_confidence : String
deriving DecidableEq, Repr

structure ParlayCandidate where
  games : String
  score : Rat
deriving DecidableEq, Repr

/-- `itertools.combinations(l, 2)`: all unordered pairs in input order. -/
def combos2 : List α → List (α × α)
  | [] => []
  | x :: xs => (xs.map fun y => (x, y)) ++ combos2 xs

/-- Descending-by-score relation used to model Python stable
`list.sort(key=score, reverse=True)`. -/
def scoreGE (a b : ParlayCandidate) : Prop := b.score ≤ a.score

instance : DecidableRel scoreGE := fun a b => inferInstanceAs (Decidable (b.score ≤ a.score))

instance : IsTotal ParlayCandidate scoreGE := ⟨fun a b => le_total b.score a.score⟩

instance : IsTrans ParlayCandidate scoreGE := ⟨fun _ _ _ hab hbc => le_trans hbc hab⟩

/-- Python `list.sort(key=lambda x: x.score, reverse=True)`: a stable sort into
descending score order (stable sorts are extensionally unique, so insertion
sort models CPython timsort exactly). -/
def sortByScoreDesc (l : List ParlayCandidate) : List ParlayCandidate :=
  List.insertionSort scoreGE l

/-- One category block of `generate_ranked_parlays` (e.g. source lines 567-577):
filter the qualifying rows, and when at least two qualify, score every
unordered pair by the average of the two weights and sort descending;
otherwise the category list stays empty. -/
def rankedCategory (rows : List ReportRow) (qualifies : ReportRow → Bool)
    (weight : ReportRow → Rat) (label : ReportRow → ReportRow → String) :
    List ParlayCandidate :=
  if 2 ≤ (rows.filter qualifies).length then
    sortByScoreDesc ((combos2 (rows.filter qualifies)).map fun p =>
      { games := label p.1 p.2, score := (weight p.1 + weight p.2) / 2 })
  else []

/-- Pair label for Strikeout parlays (source line 573). -/
def strikeoutPairLabel (g1 g2 : ReportRow) : String :=
  g1.game ++ " (" ++ g1.pitcher ++ ") & " ++ g2.game ++ " (" ++ g2.pitcher ++ ")"

/-- Strikeout parlays (source lines 567-577): label exactly "High". -/
def strikeout_parlays (rows : List ReportRow) : List ParlayCandidate :=
  rankedCategory rows (fun g => g.overall_k_confidence == "High")
    (fun g => mapGet confidence_map g.overall_k_confidence) strikeoutPairLabel

/-- NRFI parlays (source lines 580-589): label exactly "High (NRFI)". -/
def nrfi_parlays (rows : List ReportRow) : List ParlayCandidate :=
  rankedCategory rows (fun g => g.overall_nrfi_yrfi_confidence == "High (NRFI)")
    (fun g => mapGet nrfi_yrfi_map g.overall_nrfi_yrfi_confidence)
    (fun g1 g2 => g1.game ++ " (NRFI) & " ++ g2.game ++ " (NRFI)")

/-- YRFI parlays (source lines 592-601): membership in
both "High (YRFI)" and "Moderate (leaning YRFI)". -/
def yrfi_parlays (rows : List ReportRow) : List ParlayCandidate :=
  rankedCategory rows
    (fun g => ["High (YRFI)", "Moderate (leaning YRFI)"].contains g.overall_nrfi_yrfi_confidence)
    (fun g => mapGet nrfi_yrfi_map g.overall_nrfi_yrfi_confidence)
    (fun g1 g2 => g1.game ++ " (YRFI) & " ++ g2.game ++ " (YRFI)")

/-- One "{Metric} Under Parlays" block (source lines 622-631), abstracted over
the metric name and the column selector. -/
def under_parlays (conf : ReportRow → String) (metric_name : String)
    (rows : List ReportRow) : List ParlayCandidate :=
  rankedCategory rows (fun g => [("High (Under)" : String)].contains (conf g))
    (fun g => mapGet over_under_map (conf g))
    (fun g1 g2 => g1.game ++ " (" ++ metric_name ++ " Under) & " ++
      g2.game ++ " (" ++ metric_name ++ " Under)")

/-- One "{Metric} Over Parlays" block (source lines 634-643). -/
def over_parlays (conf : ReportRow → String) (metric_name : String)
    (rows : List ReportRow) : List ParlayCandidate :=
  rankedCategory rows (fun g => [("High (Over)" : String)].contains (conf g))
    (fun g => mapGet over_under_map (conf g))
    (fun g1 g2 => g1.game ++ " (" ++ metric_name ++ " Over) & " ++
      g2.game ++ " (" ++ metric_name ++ " Over)")

/-- `generate_ranked_parlays` (source lines 541-646): the full dictionary of
seventeen ranked parlay categories. -/
def generate_ranked_parlays (rows : List ReportRow) : List (String × List ParlayCandidate) :=
  [("Strikeout Parlays", strikeout_parlays rows),
   ("NRFI Parlays", nrfi_parlays rows),
   ("YRFI Parlays", yrfi_parlays rows),
   ("Hits Under Parlays", under_parlays (fun g => g.overall_hits_confidence) "Hits" rows),
   ("Hits Over Parlays", over_parlays (fun g => g.overall_hits_confidence) "Hits" rows),
   ("Walks Under Parlays", under_parlays (fun g => g.overall_walks_confidence) "Walks" rows),
   ("Walks Over Parlays", over_parlays (fun g => g.overall_walks_confidence) "Walks" rows),
   ("Singles Under Parlays", under_parlays (fun g => g.overall_singles_confidence) "Singles" rows),
   ("Singles Over Parlays", over_parlays (fun g => g.overall_singles_confidence) "Singles" rows),
   ("Doubles Under Parlays", under_parlays (fun g => g.overall_doubles_confidence) "Doubles" rows),
   ("Doubles Over Parlays", over_parlays (fun g => g.overall_doubles_confidence) "Doubles" rows),
   ("Triples Under Parlays", under_parlays (fun g => g.overall_triples_confidence) "Triples" rows),
   ("Triples Over Parlays", over_parlays (fun g => g.overall_triples_confidence) "Triples" rows),
   ("Homers Under Parlays", under_parlays (fun g => g.overall_homers_confidence) "Homers" rows),
   ("Homers Over Parlays", over_parlays (fun g => g.overall_homers_confidence) "Homers" rows),
   ("Total Bases Under Parlays",
     under_parlays (fun g => g.overall_total_bases_confidence) "Total Bases" rows),
   ("Total Bases Over Parlays",
     over_parlays (fun g => g.overall_total_bases_confidence) "Total Bases" rows)]

/-! ### Historical fact rows (per-inning pitcher and batting views) -/

/-- One pitcher-view historical fact row (columns of
`get_inning_pitcher_columns`, source lines 650-658), for a fixed inning. -/
structure PitcherRow where
  date : Nat
  game_id : Nat
  pitcher_name : String
  is_home_pitcher : Bool
  strikeouts : Nat
  runs_allowed : Nat
  batters_faced : Nat
  hits_allowed : Nat
  singles_allowed : Nat
  doubles_allowed : Nat
  triples_allowed : Nat
  homers_allowed : Nat
  total_bases_allowed : Nat
  walks_allowed : Nat
deriving DecidableEq, Repr

/-- One batting-team-view historical fact row (columns of
`get_inning_batting_columns`, source lines 660-669), for a fixed inning. -/
structure BattingRow where
  date : Nat
  game_id : Nat
  team_id : String
  is_home_team : Bool
  runs_scored : Nat
  strikeouts_batting : Nat
  batters_to_plate : Nat
  hits_batting : Nat
  singles_batting : Nat
  doubles_batting : Nat
  triples_batting : Nat
  homers_batting : Nat
  total_bases_batting : Nat
  walks_batting : Nat
deriving DecidableEq, Repr

/-! ### Aggregation primitives -/

/-- `Series.nunique()` over game ids. -/
def nuniqueGames (gids : List Nat) : Nat := gids.dedup.length

/-- `(count / games) * 100 if games > 0 else 0.0`. -/
def pctOf (count games : Nat) : Rat :=
  if 0 < games then ((count : Rat) / (games : Rat)) * 100 else 0

/-- `total / games if games > 0 else 0.0`. -/
def avgOf (total games : Nat) : Rat :=
  if 0 < games then (total : Rat) / (games : Rat) else 0

/-- `(num / den) * 100 if den > 0 else 0.0` (rate against a summed denominator
column, source lines 1918-1921). -/
def rateOf (num den : Nat) : Rat :=
  if 0 < den then ((num : Rat) / (den : Rat)) * 100 else 0

/-- A report cell that is either a numeric value or the "N/A" sentinel. -/
inductive ReportCell where
  | value (n : Nat)
  | na
deriving DecidableEq, Repr

/-! ### Pitcher-side aggregation (`analyze_games`, source lines 1591-1873) -/

/-- `pitcher_history['game_id'].nunique()` (source line 1596). -/
def pitcher_games (hist : List PitcherRow) : Nat :=
  nuniqueGames (hist.map PitcherRow.game_id)

/-- `hist[cond]['game_id'].nunique()`. -/
def pitcher_count_games (hist : List PitcherRow) (p : PitcherRow → Bool) : Nat :=
  nuniqueGames ((hist.filter p).map PitcherRow.game_id)

/-- `hist[col].sum()`. -/
def pitcher_sum (hist : List PitcherRow) (f : PitcherRow → Nat) : Nat :=
  (hist.map f).sum

/-- Occurrence percentage over a row subset: qualifying-game count divided by
the subset's distinct-game count, times 100 (0.0 when the subset has no games). -/
def pitcher_split_pct (split : List PitcherRow) (p : PitcherRow → Bool) : Rat :=
  pctOf (pitcher_count_games split p) (pitcher_games split)

/-- Per-game average over a row subset (0.0 when the subset has no games). -/
def pitcher_split_avg (split : List PitcherRow) (f : PitcherRow → Nat) : Rat :=
  avgOf (pitcher_sum split f) (pitcher_games split)

/-- `pitcher_history[pitcher_history['is_home_pitcher'] == True]` (source line 1617). -/
def pitcher_home_history (hist : List PitcherRow) : List PitcherRow :=
  hist.filter fun r => r.is_home_pitcher == true

/-- `pitcher_history[pitcher_history['is_home_pitcher'] == False]` (source line 1618). -/
def pitcher_away_history (hist : List PitcherRow) : List PitcherRow :=
  hist.filter fun r => r.is_home_pitcher == false

/-- `pitcher_history[pitcher_history['is_home_pitcher'] == is_pitcher_home_for_current_game]`
(venue filter inside the metrics loop, source line 1838). -/
def pitcher_venue_history (hist : List PitcherRow) (is_pitcher_home : Bool) : List PitcherRow :=
  hist.filter fun r => r.is_home_pitcher == is_pitcher_home

/-- Most recent outing: the row maximising `(date, game_id)`
(`sort_values(by=['date', 'game_id'], ascending=False).iloc[0]`, source
lines 1600-1602); `none` when the history is empty. -/
def latest_outing_pitcher (hist : List PitcherRow) : Option PitcherRow :=
  hist.foldl (fun acc r =>
    match acc with
    | none => some r
    | some m =>
      if m.date < r.date ∨ (m.date = r.date ∧ m.game_id < r.game_id) then some r
      else some m) none

/-- A metric-specific last-game cell: value from the most recent outing, or
the "N/A" sentinel when there is none (source lines 1780-1788). -/
def pitcher_last_game (hist : List PitcherRow) (f : PitcherRow → Nat) : ReportCell :=
  match latest_outing_pitcher hist with
  | some r => .value (f r)
  | none => .na

/-- All pitcher-side historical aggregates of one report entry. -/
structure PitcherAgg where
  total_starts : Nat
  k_rate_pct : Rat
  runs_per_gm : Rat
  hit_avg : Rat
  nrhi_pct : Rat
  singles_per_gm : Rat
  doubles_per_gm : Rat
  triples_per_gm : Rat
  homers_per_gm : Rat
  total_bases_per_gm : Rat
  singles_pct : Rat
  doubles_pct : Rat
  triples_pct : Rat
  homers_pct : Rat
  total_bases_pct : Rat
  walks_pct : Rat
  nrfi_pct : Rat
  home_nrfi_pct : Rat
  away_nrfi_pct : Rat
  venue_nrfi_pct : Rat
  home_nrhi_pct : Rat
  away_nrhi_pct : Rat
  venue_nrhi_pct : Rat
  home_k_rate : Rat
  away_k_rate : Rat
  venue_k_rate : Rat
  venue_singles_per_gm : Rat
  venue_doubles_per_gm : Rat
  venue_triples_per_gm : Rat
  venue_homers_per_gm : Rat
  venue_total_bases_per_gm : Rat
  venue_walks_per_gm : Rat
  last_strikeouts : ReportCell
  last_runs_allowed : ReportCell
  last_hits_allowed : ReportCell
  last_singles_allowed : ReportCell
  last_doubles_allowed : ReportCell
  last_triples_allowed : ReportCell
  last_homers_allowed : ReportCell
  last_total_bases_allowed : ReportCell
  last_walks_allowed : ReportCell

/-- Pitcher-side aggregation over an already-filtered history
(source lines 1596-1873):
K rate percentage (lines 1811-1817), per-game averages (1848-1849),
occurrence percentages (1819-1834), NRFI percentage (1866-1873),
home/away/venue NRFI, NRHI and K-rate splits (1617-1688), venue per-game
averages from the metrics loop (1837-1846), and metric-specific last-game
cells (1780-1788). -/
def pitcherAggOfHistory (hist : List PitcherRow) (is_pitcher_home : Bool) : PitcherAgg :=
  { total_starts := pitcher_games hist
    k_rate_pct := pitcher_split_pct hist fun r => decide (1 ≤ r.strikeouts)
    runs_per_gm := pitcher_split_avg hist PitcherRow.runs_allowed
    hit_avg := pitcher_split_avg hist PitcherRow.hits_allowed
    nrhi_pct := pitcher_split_pct hist fun r => decide (r.hits_allowed = 0)
    singles_per_gm := pitcher_split_avg hist PitcherRow.singles_allowed
    doubles_per_gm := pitcher_split_avg hist PitcherRow.doubles_allowed
    triples_per_gm := pitcher_split_avg hist PitcherRow.triples_allowed
    homers_per_gm := pitcher_split_avg hist PitcherRow.homers_allowed
    total_bases_per_gm := pitcher_split_avg hist PitcherRow.total_bases_allowed
    singles_pct := pitcher_split_pct hist fun r => decide (0 < r.singles_allowed)
    doubles_pct := pitcher_split_pct hist fun r => decide (0 < r.doubles_allowed)
    triples_pct := pitcher_split_pct hist fun r => decide (0 < r.triples_allowed)
    homers_pct := pitcher_split_pct hist fun r => decide (0 < r.homers_allowed)
    total_bases_pct := pitcher_split_pct hist fun r => decide (0 < r.total_bases_allowed)
    walks_pct := pitcher_split_pct hist fun r => decide (0 < r.walks_allowed)
    nrfi_pct := pitcher_split_pct hist fun r => decide (r.runs_allowed = 0)
    home_nrfi_pct :=
      pitcher_split_pct (pitcher_home_history hist) fun r => decide (r.runs_allowed = 0)
    away_nrfi_pct :=
      pitcher_split_pct (pitcher_away_history hist) fun r => decide (r.runs_allowed = 0)
    venue_nrfi_pct :=
      if is_pitcher_home then
        pitcher_split_pct (pitcher_home_history hist) fun r => decide (r.runs_allowed = 0)
      else
        pitcher_split_pct (pitcher_away_history hist) fun r => decide (r.runs_allowed = 0)
    home_nrhi_pct :=
      pitcher_split_pct (pitcher_home_history hist) fun r => decide (r.hits_allowed = 0)
    away_nrhi_pct :=
      pitcher_split_pct (pitcher_away_history hist) fun r => decide (r.hits_allowed = 0)
    venue_nrhi_pct :=
      if is_pitcher_home then
        pitcher_split_pct (pitcher_home_history hist) fun r => decide (r.hits_allowed = 0)
      else
        pitcher_split_pct (pitcher_away_history hist) fun r => decide (r.hits_allowed = 0)
    home_k_rate :=
      pitcher_split_pct (pitcher_home_history hist) fun r => decide (1 ≤ r.strikeouts)
    away_k_rate :=
      pitcher_split_pct (pitcher_away_history hist) fun r => decide (1 ≤ r.strikeouts)
    venue_k_rate :=
      if is_pitcher_home then
        pitcher_split_pct (pitcher_home_history hist) fun r => decide (1 ≤ r.strikeouts)
      else
        pitcher_split_pct (pitcher_away_history hist) fun r => decide (1 ≤ r.strikeouts)
    venue_singles_per_gm :=
      pitcher_split_avg (pitcher_venue_history hist is_pitcher_home) PitcherRow.singles_allowed
    venue_doubles_per_gm :=
      pitcher_split_avg (pitcher_venue_history hist is_pitcher_home) PitcherRow.doubles_allowed
    venue_triples_per_gm :=
      pitcher_split_avg (pitcher_venue_history hist is_pitcher_home) PitcherRow.triples_allowed
    venue_homers_per_gm :=
      pitcher_split_avg (pitcher_venue_history hist is_pitcher_home) PitcherRow.homers_allowed
    venue_total_bases_per_gm :=
      pitcher_split_avg (pitcher_venue_history hist is_pitcher_home) PitcherRow.total_bases_allowed
    venue_walks_per_gm :=
      pitcher_split_avg (pitcher_venue_history hist is_pitcher_home) PitcherRow.walks_allowed
    last_strikeouts := pitcher_last_game hist PitcherRow.strikeouts
    last_runs_allowed := pitcher_last_game hist PitcherRow.runs_allowed
    last_hits_allowed := pitcher_last_game hist PitcherRow.hits_allowed
    last_singles_allowed := pitcher_last_game hist PitcherRow.singles_allowed
    last_doubles_allowed := pitcher_last_game hist PitcherRow.doubles_allowed
    last_triples_allowed := pitcher_last_game hist PitcherRow.triples_allowed
    last_homers_allowed := pitcher_last_game hist PitcherRow.homers_allowed
    last_total_bases_allowed := pitcher_last_game hist PitcherRow.total_bases_allowed
    last_walks_allowed := pitcher_last_game hist PitcherRow.walks_allowed }

/-! ### Opponent (batting-team) aggregation -/

def opponent_games (hist : List BattingRow) : Nat :=
  nuniqueGames (hist.map BattingRow.game_id)

def opponent_count_games (hist : List BattingRow) (p : BattingRow → Bool) : Nat :=
  nuniqueGames ((hist.filter p).map BattingRow.game_id)

def opponent_sum (hist : List BattingRow) (f : BattingRow → Nat) : Nat :=
  (hist.map f).sum

def opponent_split_pct (split : List BattingRow) (p : BattingRow → Bool) : Rat :=
  pctOf (opponent_count_games split p) (opponent_games split)

def opponent_split_avg (split : List BattingRow) (f : BattingRow → Nat) : Rat :=
  avgOf (opponent_sum split f) (opponent_games split)

/-- `opponent_history[opponent_history['is_home_team'] == True]` (source line 1635). -/
def opponent_home_history (hist : List BattingRow) : List BattingRow :=
  hist.filter fun r => r.is_home_team == true

/-- `opponent_history[opponent_history['is_home_team'] == False]` (source line 1636). -/
def opponent_away_history (hist : List BattingRow) : List BattingRow :=
  hist.filter fun r => r.is_home_team == false

/-- Venue filter inside the batting metrics loop (source line 1901). -/
def opponent_venue_history (hist : List BattingRow) (is_opponent_home : Bool) : List BattingRow :=
  hist.filter fun r => r.is_home_team == is_opponent_home

/-- Most recent batting outing (source lines 1610-1612). -/
def latest_outing_opponent (hist : List BattingRow) : Option BattingRow :=
  hist.foldl (fun acc r =>
    match acc with
    | none => some r
    | some m =>
      if m.date < r.date ∨ (m.date = r.date ∧ m.game_id < r.game_id) then some r
      else some m) none

/-- Metric-specific last-game cell for the opponent (source lines 1792-1800). -/
def opponent_last_game (hist : List BattingRow) (f : BattingRow → Nat) : ReportCell :=
  match latest_outing_opponent hist with
  | some r => .value (f r)
  | none => .na

/-- All opponent-side historical aggregates of one report entry. -/
structure OpponentAgg where
  games_played : Nat
  k_rate_pct : Rat
  k_per_gm : Rat
  r_per_g : Rat
  bat_hit_avg : Rat
  bat_hit_rate : Rat
  bat_nrhi_pct : Rat
  singles_per_gm : Rat
  doubles_per_gm : Rat
  triples_per_gm : Rat
  homers_per_gm : Rat
  total_bases_per_gm : Rat
  walks_per_gm : Rat
  bat_nrfi_pct : Rat
  home_nrfi_pct : Rat
  away_nrfi_pct : Rat
  venue_nrfi_pct : Rat
  home_nrhi_pct : Rat
  away_nrhi_pct : Rat
  venue_nrhi_pct : Rat
  home_k_rate : Rat
  away_k_rate : Rat
  venue_k_rate : Rat
  venue_singles_per_gm : Rat
  venue_doubles_per_gm : Rat
  venue_triples_per_gm : Rat
  venue_homers_per_gm : Rat
  venue_total_bases_per_gm : Rat
  venue_walks_per_gm : Rat
  last_strikeouts : ReportCell
  last_runs_scored : ReportCell
  last_hits_batting : ReportCell
  last_singles_batting : ReportCell
  last_doubles_batting : ReportCell
  last_triples_batting : ReportCell
  last_homers_batting : ReportCell
  last_total_bases_batting : ReportCell
  last_walks_batting : ReportCell

/-- Opponent-side aggregation over an already-filtered history
(source lines 1605-1938): OPP K RATE % (1884-1890), per-game averages
(1910-1915), BAT HIT AVG rate against summed batters-to-plate (1918-1921),
BAT NRHI % (1892-1897), BAT NRFI % (1931-1938), home/away/venue splits
(1635-1705), venue averages from the metrics loop (1900-1909), and last-game
cells (1792-1800). -/
def opponentAggOfHistory (hist : List BattingRow) (is_opponent_home : Bool) : OpponentAgg :=
  { games_played := opponent_games hist
    k_rate_pct := opponent_split_pct hist fun r => decide (1 ≤ r.strikeouts_batting)
    k_per_gm := opponent_split_avg hist BattingRow.strikeouts_batting
    r_per_g := opponent_split_avg hist BattingRow.runs_scored
    bat_hit_avg := opponent_split_avg hist BattingRow.hits_batting
    bat_hit_rate :=
      rateOf (opponent_sum hist BattingRow.hits_batting)
        (opponent_sum hist BattingRow.batters_to_plate)
    bat_nrhi_pct := opponent_split_pct hist fun r => decide (r.hits_batting = 0)
    singles_per_gm := opponent_split_avg hist BattingRow.singles_batting
    doubles_per_gm := opponent_split_avg hist BattingRow.doubles_batting
    triples_per_gm := opponent_split_avg hist BattingRow.triples_batting
    homers_per_gm := opponent_split_avg hist BattingRow.homers_batting
    total_bases_per_gm := opponent_split_avg hist BattingRow.total_bases_batting
    walks_per_gm := opponent_split_avg hist BattingRow.walks_batting
    bat_nrfi_pct := opponent_split_pct hist fun r => decide (r.runs_scored = 0)
    home_nrfi_pct :=
      opponent_split_pct (opponent_home_history hist) fun r => decide (r.runs_scored = 0)
    away_nrfi_pct :=
      opponent_split_pct (opponent_away_history hist) fun r => decide (r.runs_scored = 0)
    venue_nrfi_pct :=
      if is_opponent_home then
        opponent_split_pct (opponent_home_history hist) fun r => decide (r.runs_scored = 0)
      else
        opponent_split_pct (opponent_away_history hist) fun r => decide (r.runs_scored = 0)
    home_nrhi_pct :=
      opponent_split_pct (opponent_home_history hist) fun r => decide (r.hits_batting = 0)
    away_nrhi_pct :=
      opponent_split_pct (opponent_away_history hist) fun r => decide (r.hits_batting = 0)
    venue_nrhi_pct :=
      if is_opponent_home then
        opponent_split_pct (opponent_home_history hist) fun r => decide (r.hits_batting = 0)
      else
        opponent_split_pct (opponent_away_history hist) fun r => decide (r.hits_batting = 0)
    home_k_rate :=
      opponent_split_pct (opponent_home_history hist) fun r => decide (1 ≤ r.strikeouts_batting)
    away_k_rate :=
      opponent_split_pct (opponent_away_history hist) fun r => decide (1 ≤ r.strikeouts_batting)
    venue_k_rate :=
      if is_opponent_home then
        opponent_split_pct (opponent_home_history hist) fun r => decide (1 ≤ r.strikeouts_batting)
      else
        opponent_split_pct (opponent_away_history hist) fun r => decide (1 ≤ r.strikeouts_batting)
    venue_singles_per_gm :=
      opponent_split_avg (opponent_venue_history hist is_opponent_home) BattingRow.singles_batting
    venue_doubles_per_gm :=
      opponent_split_avg (opponent_venue_history hist is_opponent_home) BattingRow.doubles_batting
    venue_triples_per_gm :=
      opponent_split_avg (opponent_venue_history hist is_opponent_home) BattingRow.triples_batting
    venue_homers_per_gm :=
      opponent_split_avg (opponent_venue_history hist is_opponent_home) BattingRow.homers_batting
    venue_total_bases_per_gm :=
      opponent_split_avg (opponent_venue_history hist is_opponent_home)
        BattingRow.total_bases_batting
    venue_walks_per_gm :=
      opponent_split_avg (opponent_venue_history hist is_opponent_home) BattingRow.walks_batting
    last_strikeouts := opponent_last_game hist BattingRow.strikeouts_batting
    last_runs_scored := opponent_last_game hist BattingRow.runs_scored
    last_hits_batting := opponent_last_game hist BattingRow.hits_batting
    last_singles_batting := opponent_last_game hist BattingRow.singles_batting
    last_doubles_batting := opponent_last_game hist BattingRow.doubles_batting
    last_triples_batting := opponent_last_game hist BattingRow.triples_batting
    last_homers_batting := opponent_last_game hist BattingRow.homers_batting
    last_total_bases_batting := opponent_last_game hist BattingRow.total_bases_batting
    last_walks_batting := opponent_last_game hist BattingRow.walks_batting }

/-! ### Top-level per-entry analysis (`analyze_games`, source lines 1568-1979) -/

/-- `master_pitcher_df[date < report_date]` then filter by pitcher name
(source lines 1591 and 1595). -/
def pitcher_history (master : List PitcherRow) (name : String) (report_date : Nat) :
    List PitcherRow :=
  (master.filter fun r => decide (r.date < report_date)).filter
    fun r => r.pitcher_name == name

/-- `master_batting_df[date < report_date]` then filter by opponent team id
(source lines 1592 and 1605). -/
def opponent_history (master : List BattingRow) (team : String) (report_date : Nat) :
    List BattingRow :=
  (master.filter fun r => decide (r.date < report_date)).filter
    fun r => r.team_id == team

def analyze_pitcher (master : List PitcherRow) (name : String) (report_date : Nat)
    (is_pitcher_home : Bool) : PitcherAgg :=
  pitcherAggOfHistory (pitcher_history master name report_date) is_pitcher_home

def analyze_opponent (master : List BattingRow) (team : String) (report_date : Nat)
    (is_opponent_home : Bool) : OpponentAgg :=
  opponentAggOfHistory (opponent_history master team report_date) is_opponent_home

/-- One report entry of `analyze_games`: the pitcher aggregates at the
pitcher's venue flag, and the opposing team aggregates at the inverse flag
(`is_opponent_home_for_current_game = not is_pitcher_home_for_current_game`,
source lines 1649 and 1691). -/
def analyze_entry (pmaster : List PitcherRow) (bmaster : List BattingRow)
    (name team : String) (report_date : Nat) (is_pitcher_home : Bool) :
    PitcherAgg × OpponentAgg :=
  (analyze_pitcher pmaster name report_date is_pitcher_home,
   analyze_opponent bmaster team report_date (!is_pitcher_home))

/-! ### General lemmas about the embedding -/

lemma filter_date_insert {α} (dateOf : α → Nat) (l1 l2 : List α) (r : α) (d : Nat)
    (h : d ≤ dateOf r) :
    (l1 ++ r :: l2).filter (fun x => decide (dateOf x < d)) =
      (l1 ++ l2).filter (fun x => decide (dateOf x < d)) := by
  simp only [List.filter_append, List.filter_cons]
  have hr : ¬ (dateOf r < d) := by omega
  simp [hr]

lemma pitcher_history_insert (l1 l2 : List PitcherRow) (r : PitcherRow)
    (name : String) (d : Nat) (h : d ≤ r.date) :
    pitcher_history (l1 ++ r :: l2) name d = pitcher_history (l1 ++ l2) name d := by
  unfold pitcher_history
  rw [filter_date_insert PitcherRow.date l1 l2 r d h]

lemma opponent_history_insert (l1 l2 : List BattingRow) (s : BattingRow)
    (team : String) (d : Nat) (h : d ≤ s.date) :
    opponent_history (l1 ++ s :: l2) team d = opponent_history (l1 ++ l2) team d := by
  unfold opponent_history
  rw [filter_date_insert BattingRow.date l1 l2 s d h]

lemma pitcher_history_date_lt {master : List PitcherRow} {name : String} {d : Nat}
    {x : PitcherRow} (hx : x ∈ pitcher_history master name d) : x.date < d := by
  simp only [pitcher_history, List.mem_filter, decide_eq_true_eq] at hx
  exact hx.1.2

lemma opponent_history_date_lt {master : List BattingRow} {team : String} {d : Nat}
    {x : BattingRow} (hx : x ∈ opponent_history master team d) : x.date < d := by
  simp only [opponent_history, List.mem_filter, decide_eq_true_eq] at hx
  exact hx.1.2

/-! ### Sample rows used by the concrete witnesses -/

def samplePitcherRow : PitcherRow :=
  { date := 5, game_id := 101, pitcher_name := "Doe, John", is_home_pitcher := true,
    strikeouts := 9, runs_allowed := 7, batters_faced := 12, hits_allowed := 8,
    singles_allowed := 4, doubles_allowed := 2, triples_allowed := 1,
    homers_allowed := 1, total_bases_allowed := 15, walks_allowed := 3 }

def sampleBattingRow : BattingRow :=
  { date := 6, game_id := 102, team_id := "NYY", is_home_team := false,
    runs_scored := 9, strikeouts_batting := 1, batters_to_plate := 11,
    hits_batting := 7, singles_batting := 3, doubles_batting := 2,
    triples_batting := 1, homers_batting := 1, total_bases_batting := 14,
    walks_batting := 2 }

def strayPitcherRow : PitcherRow :=
  { date := 3, game_id := 50, pitcher_name := "Other, Guy", is_home_pitcher := false,
    strikeouts := 1, runs_allowed := 2, batters_faced := 6, hits_allowed := 3,
    singles_allowed := 2, doubles_allowed := 1, triples_allowed := 0,
    homers_allowed := 0, total_bases_allowed := 4, walks_allowed := 1 }

def zeroPlateBattingRow : BattingRow :=
  { date := 2, game_id := 60, team_id := "BOS", is_home_team := true,
    runs_scored := 0, strikeouts_batting := 0, batters_to_plate := 0,
    hits_batting := 0, singles_batting := 0, doubles_batting := 0,
    triples_batting := 0, homers_batting := 0, total_bases_batting := 0,
    walks_batting := 0 }

def homeOnlyPitcherRow : PitcherRow :=
  { date := 3, game_id := 70, pitcher_name := "Doe, John", is_home_pitcher := true,
    strikeouts := 2, runs_allowed := 0, batters_faced := 4, hits_allowed := 1,
    singles_allowed := 1, doubles_allowed := 0, triples_allowed := 0,
    homers_allowed := 0, total_bases_allowed := 1, walks_allowed := 0 }

/-! ### C1: strict temporal filtering of historical aggregates -/

/-- C1: for every report date, every historical aggregate (for the pitcher and
for the opposing batting team) is computed only from fact rows dated strictly
before the report date, so injecting a row dated on or after the report date
anywhere into either master table changes no aggregate of the report entry. -/
theorem no_lookahead_in_historical_aggregates
    (pm1 pm2 : List PitcherRow) (bm1 bm2 : List BattingRow)
    (r : PitcherRow) (s : BattingRow) (name team : String) (d : Nat) (is_home : Bool)
    (hr : d ≤ r.date) (hs : d ≤ s.date) :
    (∀ x ∈ pitcher_history (pm1 ++ r :: pm2) name d, x.date < d) ∧
    (∀ x ∈ opponent_history (bm1 ++ s :: bm2) team d, x.date < d) ∧
    analyze_entry (pm1 ++ r :: pm2) (bm1 ++ s :: bm2) name team d is_home =
      analyze_entry (pm1 ++ pm2) (bm1 ++ bm2) name team d is_home := by
  refine ⟨fun x hx => pitcher_history_date_lt hx,
    fun x hx => opponent_history_date_lt hx, ?_⟩
  unfold analyze_entry analyze_pitcher analyze_opponent
  rw [pitcher_history_insert pm1 pm2 r name d hr,
    opponent_history_insert bm1 bm2 s team d hs]

/-- C1 witness: a same-day pitcher row (date 5 = report date) and a later
batting row (date 6) contribute nothing: the report entry equals the one
computed from empty master tables. -/
theorem no_lookahead_witness :
    analyze_entry [samplePitcherRow] [sampleBattingRow] "Doe, John" "NYY" 5 true =
      analyze_entry [] [] "Doe, John" "NYY" 5 true :=
  (no_lookahead_in_historical_aggregates [] [] [] [] samplePitcherRow sampleBattingRow
    "Doe, John" "NYY" 5 true (by decide) (by decide)).2.2

/-! ### C2: zero-history entities degrade to 0.0 and the "N/A" sentinel -/

/-- The aggregate row the spec predicts for an entity with no qualifying
history: every average, rate and percentage is 0.0 and every
most-recent-game cell is the "N/A" sentinel. -/
def zeroPitcherAgg : PitcherAgg :=
  { total_starts := 0, k_rate_pct := 0, runs_per_gm := 0, hit_avg := 0, nrhi_pct := 0,
    singles_per_gm := 0, doubles_per_gm := 0, triples_per_gm := 0, homers_per_gm := 0,
    total_bases_per_gm := 0, singles_pct := 0, doubles_pct := 0, triples_pct := 0,
    homers_pct := 0, total_bases_pct := 0, walks_pct := 0, nrfi_pct := 0,
    home_nrfi_pct := 0, away_nrfi_pct := 0, venue_nrfi_pct := 0,
    home_nrhi_pct := 0, away_nrhi_pct := 0, venue_nrhi_pct := 0,
    home_k_rate := 0, away_k_rate := 0, venue_k_rate := 0,
    venue_singles_per_gm := 0, venue_doubles_per_gm := 0, venue_triples_per_gm := 0,
    venue_homers_per_gm := 0, venue_total_bases_per_gm := 0, venue_walks_per_gm := 0,
    last_strikeouts := .na, last_runs_allowed := .na, last_hits_allowed := .na,
    last_singles_allowed := .na, last_doubles_allowed := .na, last_triples_allowed := .na,
    last_homers_allowed := .na, last_total_bases_allowed := .na, last_walks_allowed := .na }

/-- The all-defaults aggregate row for a batting team with no history. -/
def zeroOpponentAgg : OpponentAgg :=
  { games_played := 0, k_rate_pct := 0, k_per_gm := 0, r_per_g := 0, bat_hit_avg := 0,
    bat_hit_rate := 0, bat_nrhi_pct := 0, singles_per_gm := 0, doubles_per_gm := 0,
    triples_per_gm := 0, homers_per_gm := 0, total_bases_per_gm := 0, walks_per_gm := 0,
    bat_nrfi_pct := 0, home_nrfi_pct := 0, away_nrfi_pct := 0, venue_nrfi_pct := 0,
    home_nrhi_pct := 0, away_nrhi_pct := 0, venue_nrhi_pct := 0,
    home_k_rate := 0, away_k_rate := 0, venue_k_rate := 0,
    venue_singles_per_gm := 0, venue_doubles_per_gm := 0, venue_triples_per_gm := 0,
    venue_homers_per_gm := 0, venue_total_bases_per_gm := 0, venue_walks_per_gm := 0,
    last_strikeouts := .na, last_runs_scored := .na, last_hits_batting := .na,
    last_singles_batting := .na, last_doubles_batting := .na, last_triples_batting := .na,
    last_homers_batting := .na, last_total_bases_batting := .na, last_walks_batting := .na }

/-- C2: an entity with zero qualifying historical rows gets the all-defaults
aggregate row: every average/rate/percentage equals 0.0 and every
most-recent-game cell is the "N/A" sentinel, never zero; moreover any rate
whose summed denominator is zero (here BAT HIT AVG against batters to plate)
is defined as 0.0 regardless of the rest of the history. -/
theorem zero_history_all_defaults (pm : List PitcherRow) (bm : List BattingRow)
    (name team : String) (d : Nat) (bp bo : Bool)
    (hp : pitcher_history pm name d = []) (ho : opponent_history bm team d = []) :
    analyze_pitcher pm name d bp = zeroPitcherAgg ∧
    analyze_opponent bm team d bo = zeroOpponentAgg ∧
    (∀ (hist : List BattingRow) (b : Bool),
      opponent_sum hist BattingRow.batters_to_plate = 0 →
      (opponentAggOfHistory hist b).bat_hit_rate = 0) := by
  refine ⟨?_, ?_, ?_⟩
  · unfold analyze_pitcher
    rw [hp]
    cases bp <;> rfl
  · unfold analyze_opponent
    rw [ho]
    cases bo <;> rfl
  · intro hist b h
    simp [opponentAggOfHistory, rateOf, h]

/-- C2 witness: a master table containing only another pitcher dated before
the report date yields the all-defaults row for the queried pitcher, and a
history whose batters-to-plate sum is zero yields a 0.0 hit rate. -/
theorem zero_history_witness :
    analyze_pitcher [strayPitcherRow] "Doe, John" 5 true = zeroPitcherAgg ∧
    (opponentAggOfHistory [zeroPlateBattingRow] true).bat_hit_rate = 0 :=
  ⟨(zero_history_all_defaults [strayPitcherRow] [] "Doe, John" "NYY" 5 true true
      (by decide) rfl).1,
   (zero_history_all_defaults [] [] "Doe, John" "NYY" 5 true true rfl rfl).2.2
      [zeroPlateBattingRow] true (by decide)⟩

/-! ### C3: the two side recommendations agree, they are not mirror images -/

/-- C3 counterexample: at the composite label "High (Under)" for the Hits
metric, the opponent-side recommendation is "Under Hits Bet" — the same
direction as the pitcher side — and not the mirrored "Over Hits Bet". -/
theorem over_under_bets_not_mirrored :
    pitcher_over_under_bet "Hits" "High (Under)" = "Under Hits Bet" ∧
    opponent_over_under_bet "Hits" "High (Under)" = "Under Hits Bet" ∧
    opponent_over_under_bet "Hits" "High (Under)" ≠ "Over Hits Bet" := by
  decide

/-- C3 amended: for every Over/Under metric the two side recommendations are
identical, not mirrored: High (Under) sends both sides to "Under X Bet",
High (Over) sends both to "Over X Bet", anything else to "Neutral"; the
runs-side (NRFI/YRFI) pair behaves the same way. -/
theorem over_under_bets_same_direction (metric x : String) :
    opponent_over_under_bet metric x = pitcher_over_under_bet metric x ∧
    (x = "High (Under)" → pitcher_over_under_bet metric x = "Under " ++ metric ++ " Bet") ∧
    (x = "High (Over)" → pitcher_over_under_bet metric x = "Over " ++ metric ++ " Bet") ∧
    (x ≠ "High (Under)" → x ≠ "High (Over)" → pitcher_over_under_bet metric x = "Neutral") ∧
    (∀ y : String, opponent_runs_bet y = pitcher_runs_bet y) := by
  refine ⟨?_, ?_, ?_, ?_, ?_⟩
  · unfold pitcher_over_under_bet opponent_over_under_bet
    by_cases h1 : x = "High (Under)"
    · subst h1
      rw [if_neg (by decide), if_pos rfl, if_pos rfl]
    · by_cases h2 : x = "High (Over)"
      · subst h2
        rw [if_pos rfl, if_neg (by decide), if_pos rfl]
      · rw [if_neg h2, if_neg h1, if_neg h1, if_neg h2]
  · intro h
    subst h
    unfold pitcher_over_under_bet
    rw [if_pos rfl]
  · intro h
    subst h
    unfold pitcher_over_under_bet
    rw [if_neg (by decide), if_pos rfl]
  · intro h1 h2
    unfold pitcher_over_under_bet
    rw [if_neg h1, if_neg h2]
  · intro y
    unfold opponent_runs_bet pitcher_runs_bet
    by_cases h1 : y = "High (NRFI)"
    · subst h1
      rw [if_neg (by decide), if_pos rfl, if_pos rfl]
    · by_cases h2 : y = "High (YRFI)"
      · subst h2
        rw [if_pos rfl, if_neg (by decide), if_pos rfl]
      · rw [if_neg h2, if_neg h1, if_neg h1, if_neg h2]

/-- C3 amended witness at the Walks metric and the label "High (Over)". -/
theorem over_under_bets_same_direction_witness :
    opponent_over_under_bet "Walks" "High (Over)" =
      pitcher_over_under_bet "Walks" "High (Over)" ∧
    pitcher_over_under_bet "Walks" "High (Over)" = "Over Walks Bet" ∧
    pitcher_over_under_bet "Walks" "Neutral" = "Neutral" :=
  ⟨(over_under_bets_same_direction "Walks" "High (Over)").1,
   (over_under_bets_same_direction "Walks" "High (Over)").2.2.1 rfl,
   (over_under_bets_same_direction "Walks" "Neutral").2.2.2.1
     (by decide) (by decide)⟩

/-! ### C4: the NRFI/YRFI composite classifier thresholds -/

/-- C4: the composite NRFI/YRFI classifier returns High (NRFI) exactly when
both zero-run percentages are at least 70 and the run-prevention score is at
least 2 (High or Moderate); failing that, Moderate (leaning NRFI) exactly when
both are at least 60 with a run-prevention score of at least 1; failing that,
High (YRFI) exactly when both complements (100 minus the percentage) are at
least 70; then Moderate (leaning YRFI) when both complements are at least 60;
and Low otherwise. -/
theorem nrfi_yrfi_classifier_thresholds (p o : Rat) (c : String) :
    (calculate_overall_nrfi_yrfi_confidence p o c = "High (NRFI)" ↔
      70 ≤ p ∧ 70 ≤ o ∧ 2 ≤ mapGet confidence_map c) ∧
    (calculate_overall_nrfi_yrfi_confidence p o c = "Moderate (leaning NRFI)" ↔
      ¬(70 ≤ p ∧ 70 ≤ o ∧ 2 ≤ mapGet confidence_map c) ∧
      (60 ≤ p ∧ 60 ≤ o ∧ 1 ≤ mapGet confidence_map c)) ∧
    (calculate_overall_nrfi_yrfi_confidence p o c = "High (YRFI)" ↔
      ¬(70 ≤ p ∧ 70 ≤ o ∧ 2 ≤ mapGet confidence_map c) ∧
      ¬(60 ≤ p ∧ 60 ≤ o ∧ 1 ≤ mapGet confidence_map c) ∧
      (70 ≤ 100 - p ∧ 70 ≤ 100 - o)) ∧
    (calculate_overall_nrfi_yrfi_confidence p o c = "Moderate (leaning YRFI)" ↔
      ¬(70 ≤ p ∧ 70 ≤ o ∧ 2 ≤ mapGet confidence_map c) ∧
      ¬(60 ≤ p ∧ 60 ≤ o ∧ 1 ≤ mapGet confidence_map c) ∧
      ¬(70 ≤ 100 - p ∧ 70 ≤ 100 - o) ∧
      (60 ≤ 100 - p ∧ 60 ≤ 100 - o)) ∧
    (calculate_overall_nrfi_yrfi_confidence p o c = "Low" ↔
      ¬(70 ≤ p ∧ 70 ≤ o ∧ 2 ≤ mapGet confidence_map c) ∧
      ¬(60 ≤ p ∧ 60 ≤ o ∧ 1 ≤ mapGet confidence_map c) ∧
      ¬(70 ≤ 100 - p ∧ 70 ≤ 100 - o) ∧
      ¬(60 ≤ 100 - p ∧ 60 ≤ 100 - o)) := by
  unfold calculate_overall_nrfi_yrfi_confidence
  dsimp only
  split_ifs with h1 h2 h3 h4
  · exact ⟨iff_of_true rfl h1,
      iff_of_false (by decide) fun hk => hk.1 h1,
      iff_of_false (by decide) fun hk => hk.1 h1,
      iff_of_false (by decide) fun hk => hk.1 h1,
      iff_of_false (by decide) fun hk => hk.1 h1⟩
  · exact ⟨iff_of_false (by decide) h1,
      iff_of_true rfl ⟨h1, h2⟩,
      iff_of_false (by decide) fun hk => hk.2.1 h2,
      iff_of_false (by decide) fun hk => hk.2.1 h2,
      iff_of_false (by decide) fun hk => hk.2.1 h2⟩
  · exact ⟨iff_of_false (by decide) h1,
      iff_of_false (by decide) fun hk => h2 hk.2,
      iff_of_true rfl ⟨h1, h2, h3⟩,
      iff_of_false (by decide) fun hk => hk.2.2.1 h3,
      iff_of_false (by decide) fun hk => hk.2.2.1 h3⟩
  · exact ⟨iff_of_false (by decide) h1,
      iff_of_false (by decide) fun hk => h2 hk.2,
      iff_of_false (by decide) fun hk => h3 hk.2.2,
      iff_of_true rfl ⟨h1, h2, h3, h4⟩,
      iff_of_false (by decide) fun hk => hk.2.2.2 h4⟩
  · exact ⟨iff_of_false (by decide) h1,
      iff_of_false (by decide) fun hk => h2 hk.2,
      iff_of_false (by decide) fun hk => h3 hk.2.2,
      iff_of_false (by decide) fun hk => h4 hk.2.2.2,
      iff_of_true rfl ⟨h1, h2, h3, h4⟩⟩

/-! ### C5: single-value threshold classification and its monotonicity -/

/-- C5: single-value classification follows the threshold pair and direction:
with thresholds high = 25 and moderate = 15 in the greater-is-better
direction, 30 classifies High, 18 Moderate and 5 Low; in the less-is-better
direction a value at most high is High, at most moderate is Moderate and
anything larger is Low; and classification is monotone in the input (ranked
through the numeric confidence weights): nondecreasing for greater-is-better
and nonincreasing for less-is-better. -/
theorem confidence_level_thresholds :
    (calculate_confidence_level 30 25 15 "greater" = "High" ∧
     calculate_confidence_level 18 25 15 "greater" = "Moderate" ∧
     calculate_confidence_level 5 25 15 "greater" = "Low") ∧
    (∀ v h m : Rat,
      (v ≤ h → calculate_confidence_level v h m "less" = "High") ∧
      (h < v → v ≤ m → calculate_confidence_level v h m "less" = "Moderate") ∧
      (h < v → m < v → calculate_confidence_level v h m "less" = "Low")) ∧
    (∀ v w h m : Rat, v ≤ w →
      mapGet confidence_map (calculate_confidence_level v h m "greater") ≤
        mapGet confidence_map (calculate_confidence_level w h m "greater")) ∧
    (∀ v w h m : Rat, v ≤ w →
      mapGet confidence_map (calculate_confidence_level w h m "less") ≤
        mapGet confidence_map (calculate_confidence_level v h m "less")) := by
  refine ⟨by decide, ?_, ?_, ?_⟩
  · intro v h m
    unfold calculate_confidence_level
    rw [if_neg (by decide : ¬ ("less" : String) = "greater"), if_pos rfl]
    refine ⟨fun hv => by rw [if_pos hv], fun h1 h2 => ?_, fun h1 h2 => ?_⟩
    · rw [if_neg (not_le.mpr h1), if_pos h2]
    · rw [if_neg (not_le.mpr h1), if_neg (not_le.mpr h2)]
  · intro v w h m hvw
    unfold calculate_confidence_level
    rw [if_pos rfl, if_pos rfl]
    split_ifs <;> first | decide | (exfalso; linarith)
  · intro v w h m hvw
    unfold calculate_confidence_level
    rw [if_neg (by decide : ¬ ("less" : String) = "greater"), if_pos rfl,
      if_neg (by decide : ¬ ("less" : String) = "greater"), if_pos rfl]
    split_ifs <;> first | decide | (exfalso; linarith)

/-- C5 witness: monotonicity applied at 10 ≤ 30 in the greater direction, and
less-is-better classification applied at concrete thresholds. -/
theorem confidence_level_thresholds_witness :
    mapGet confidence_map (calculate_confidence_level 10 25 15 "greater") ≤
      mapGet confidence_map (calculate_confidence_level 30 25 15 "greater") ∧
    calculate_confidence_level 7 8 12 "less" = "High" :=
  ⟨confidence_level_thresholds.2.2.1 10 30 25 15 (by decide),
   (confidence_level_thresholds.2.1 7 8 12).1 (by decide)⟩

/-! ### C6: venue splits draw only from same-role rows; roles are inverse -/

lemma filter_home_false_nil {hist : List PitcherRow}
    (h : ∀ x ∈ hist, x.is_home_pitcher = true) :
    hist.filter (fun r => r.is_home_pitcher == false) = [] := by
  induction hist with
  | nil => rfl
  | cons a l ih =>
    have ha := h a (List.mem_cons_self a l)
    simp only [List.filter_cons, ha]
    simpa using ih fun x hx => h x (List.mem_cons_of_mem a hx)

/-- C6: the away-role venue split draws only from away-flagged rows, so a
pitcher whose entire history is home-flagged gets 0.0 for every away/venue
aggregate when analysed as the away pitcher; and the venue role used for the
opposing batting team is always the inverse of the pitcher's flag: when the
pitcher is home the opponent's selected venue aggregates are its away split,
and when the pitcher is away they are its home split. -/
theorem away_venue_split_draws_only_away_rows
    (pm : List PitcherRow) (name : String) (d : Nat)
    (honly : ∀ x ∈ pitcher_history pm name d, x.is_home_pitcher = true) :
    (∀ (hist : List PitcherRow), ∀ x ∈ pitcher_away_history hist,
      x.is_home_pitcher = false) ∧
    ((analyze_pitcher pm name d false).away_nrfi_pct = 0 ∧
     (analyze_pitcher pm name d false).venue_nrfi_pct = 0 ∧
     (analyze_pitcher pm name d false).away_nrhi_pct = 0 ∧
     (analyze_pitcher pm name d false).venue_nrhi_pct = 0 ∧
     (analyze_pitcher pm name d false).away_k_rate = 0 ∧
     (analyze_pitcher pm name d false).venue_k_rate = 0 ∧
     (analyze_pitcher pm name d false).venue_singles_per_gm = 0 ∧
     (analyze_pitcher pm name d false).venue_doubles_per_gm = 0 ∧
     (analyze_pitcher pm name d false).venue_triples_per_gm = 0 ∧
     (analyze_pitcher pm name d false).venue_homers_per_gm = 0 ∧
     (analyze_pitcher pm name d false).venue_total_bases_per_gm = 0 ∧
     (analyze_pitcher pm name d false).venue_walks_per_gm = 0) ∧
    (∀ (pm2 : List PitcherRow) (bm2 : List BattingRow) (n2 t2 : String) (d2 : Nat),
      ((analyze_entry pm2 bm2 n2 t2 d2 true).2.venue_nrfi_pct =
         (analyze_entry pm2 bm2 n2 t2 d2 true).2.away_nrfi_pct ∧
       (analyze_entry pm2 bm2 n2 t2 d2 true).2.venue_nrhi_pct =
         (analyze_entry pm2 bm2 n2 t2 d2 true).2.away_nrhi_pct ∧
       (analyze_entry pm2 bm2 n2 t2 d2 true).2.venue_k_rate =
         (analyze_entry pm2 bm2 n2 t2 d2 true).2.away_k_rate ∧
       (analyze_entry pm2 bm2 n2 t2 d2 false).2.venue_nrfi_pct =
         (analyze_entry pm2 bm2 n2 t2 d2 false).2.home_nrfi_pct ∧
       (analyze_entry pm2 bm2 n2 t2 d2 false).2.venue_nrhi_pct =
         (analyze_entry pm2 bm2 n2 t2 d2 false).2.home_nrhi_pct ∧
       (analyze_entry pm2 bm2 n2 t2 d2 false).2.venue_k_rate =
         (analyze_entry pm2 bm2 n2 t2 d2 false).2.home_k_rate)) := by
  refine ⟨?_, ?_, ?_⟩
  · intro hist x hx
    unfold pitcher_away_history at hx
    simpa using (List.mem_filter.mp hx).2
  · have hnil : pitcher_away_history (pitcher_history pm name d) = [] := by
      unfold pitcher_away_history
      exact filter_home_false_nil honly
    have hv : pitcher_venue_history (pitcher_history pm name d) false =
        pitcher_away_history (pitcher_history pm name d) := rfl
    simp [analyze_pitcher, pitcherAggOfHistory, hv, hnil, pitcher_split_pct,
      pitcher_split_avg, pitcher_games, pitcher_count_games, pitcher_sum,
      nuniqueGames, pctOf, avgOf]
  · intro pm2 bm2 n2 t2 d2
    exact ⟨rfl, rfl, rfl, rfl, rfl, rfl⟩

/-- C6 witness: a home-only one-game history analysed for an away current
game yields 0.0 away/venue splits, and with the pitcher at home the
opponent's selected venue split is its away split. -/
theorem away_venue_split_witness :
    (analyze_pitcher [homeOnlyPitcherRow] "Doe, John" 5 false).away_nrfi_pct = 0 ∧
    (analyze_pitcher [homeOnlyPitcherRow] "Doe, John" 5 false).venue_nrfi_pct = 0 ∧
    (analyze_entry [homeOnlyPitcherRow] [sampleBattingRow]
        "Doe, John" "NYY" 7 true).2.venue_nrfi_pct =
      (analyze_entry [homeOnlyPitcherRow] [sampleBattingRow]
        "Doe, John" "NYY" 7 true).2.away_nrfi_pct := by
  have h := away_venue_split_draws_only_away_rows [homeOnlyPitcherRow] "Doe, John" 5
    (by decide)
  exact ⟨h.2.1.1, h.2.1.2.1,
    (h.2.2 [homeOnlyPitcherRow] [sampleBattingRow] "Doe, John" "NYY" 7).1⟩

/-! ### Report rows used by the parlay witnesses -/

def highKRowA : ReportRow :=
  { game := "BOS @ NYY", pitcher := "Cole, Gerrit", overall_k_confidence := "High",
    overall_nrfi_yrfi_confidence := "Low", overall_hits_confidence := "Neutral",
    overall_walks_confidence := "Neutral", overall_singles_confidence := "Neutral",
    overall_doubles_confidence := "Neutral", overall_triples_confidence := "Neutral",
    overall_homers_confidence := "Neutral", overall_total_bases_confidence := "Neutral" }

def highKRowB : ReportRow :=
  { game := "LAD @ SFG", pitcher := "Webb, Logan", overall_k_confidence := "High",
    overall_nrfi_yrfi_confidence := "Low", overall_hits_confidence := "Neutral",
    overall_walks_confidence := "Neutral", overall_singles_confidence := "Neutral",
    overall_doubles_confidence := "Neutral", overall_triples_confidence := "Neutral",
    overall_homers_confidence := "Neutral", overall_total_bases_confidence := "Neutral" }

def lowKRow : ReportRow :=
  { game := "CHC @ STL", pitcher := "Gray, Sonny", overall_k_confidence := "Low",
    overall_nrfi_yrfi_confidence := "Low", overall_hits_confidence := "Neutral",
    overall_walks_confidence := "Neutral", overall_singles_confidence := "Neutral",
    overall_doubles_confidence := "Neutral", overall_triples_confidence := "Neutral",
    overall_homers_confidence := "Neutral", overall_total_bases_confidence := "Neutral" }

def yrfiHighRowA : ReportRow :=
  { game := "ATL @ PHI", pitcher := "Nola, Aaron", overall_k_confidence := "Low",
    overall_nrfi_yrfi_confidence := "High (YRFI)", overall_hits_confidence := "Neutral",
    overall_walks_confidence := "Neutral", overall_singles_confidence := "Neutral",
    overall_doubles_confidence := "Neutral", overall_triples_confidence := "Neutral",
    overall_homers_confidence := "Neutral", overall_total_bases_confidence := "Neutral" }

def yrfiHighRowB : ReportRow :=
  { game := "SEA @ HOU", pitcher := "Castillo, Luis", overall_k_confidence := "Low",
    overall_nrfi_yrfi_confidence := "High (YRFI)", overall_hits_confidence := "Neutral",
    overall_walks_confidence := "Neutral", overall_singles_confidence := "Neutral",
    overall_doubles_confidence := "Neutral", overall_triples_confidence := "Neutral",
    overall_homers_confidence := "Neutral", overall_total_bases_confidence := "Neutral" }

def yrfiModerateRow : ReportRow :=
  { game := "TEX @ OAK", pitcher := "Eovaldi, Nathan", overall_k_confidence := "Low",
    overall_nrfi_yrfi_confidence := "Moderate (leaning YRFI)",
    overall_hits_confidence := "Neutral", overall_walks_confidence := "Neutral",
    overall_singles_confidence := "Neutral", overall_doubles_confidence := "Neutral",
    overall_triples_confidence := "Neutral", overall_homers_confidence := "Neutral",
    overall_total_bases_confidence := "Neutral" }

/-! ### Facts about `rankedCategory` shared by the parlay proofs -/

lemma rankedCategory_mem {rows : List ReportRow} {qualifies : ReportRow → Bool}
    {w : ReportRow → Rat} {label : ReportRow → ReportRow → String}
    {c : ParlayCandidate} (hc : c ∈ rankedCategory rows qualifies w label) :
    ∃ p ∈ combos2 (rows.filter qualifies),
      c.games = label p.1 p.2 ∧ c.score = (w p.1 + w p.2) / 2 := by
  unfold rankedCategory at hc
  split at hc
  · rw [sortByScoreDesc, List.mem_insertionSort] at hc
    obtain ⟨p, hp, rfl⟩ := List.mem_map.mp hc
    exact ⟨p, hp, rfl, rfl⟩
  · cases hc

/-! ### C7: small parlay categories -/

/-- C7: a parlay category with fewer than two qualifying rows yields the
empty list (no error), and a category with exactly two qualifying rows
yields exactly one candidate: the single unordered pair of those two rows. -/
theorem parlay_small_categories
    (rows : List ReportRow) (qualifies : ReportRow → Bool)
    (w : ReportRow → Rat) (label : ReportRow → ReportRow → String) :
    ((rows.filter qualifies).length < 2 →
      rankedCategory rows qualifies w label = []) ∧
    (∀ a b, rows.filter qualifies = [a, b] →
      rankedCategory rows qualifies w label =
        [{ games := label a b, score := (w a + w b) / 2 }]) := by
  constructor
  · intro h
    unfold rankedCategory
    rw [if_neg (by omega)]
  · intro a b h
    unfold rankedCategory
    rw [h]
    norm_num [combos2, sortByScoreDesc, List.insertionSort, List.orderedInsert]

/-- C7 witness: one qualifying Strikeout row yields no parlay; two yield the
single pair. -/
theorem parlay_small_categories_witness :
    strikeout_parlays [lowKRow] = [] ∧
    strikeout_parlays [highKRowA, highKRowB] =
      [{ games := strikeoutPairLabel highKRowA highKRowB, score := 3 }] := by
  constructor
  · exact (parlay_small_categories [lowKRow]
      (fun g => g.overall_k_confidence == "High")
      (fun g => mapGet confidence_map g.overall_k_confidence)
      strikeoutPairLabel).1 (by decide)
  · unfold strikeout_parlays
    rw [(parlay_small_categories [highKRowA, highKRowB]
      (fun g => g.overall_k_confidence == "High")
      (fun g => mapGet confidence_map g.overall_k_confidence)
      strikeoutPairLabel).2 highKRowA highKRowB (by decide)]
    norm_num +decide [highKRowA, highKRowB, mapGet, confidence_map]

/-! ### C8: parlay scores and descending order -/

/-- C8: every candidate in a ranked parlay category scores the arithmetic
average of its two rows' confidence weights, the returned list is sorted in
descending score order (stably, so ties keep enumeration order), and for
three qualifying rows with weights 3, 3 and 1 the pair of the two weight-3
rows (score 3) ranks above both pairs involving the weight-1 row (score 2). -/
theorem parlay_scores_and_descending_order
    (rows : List ReportRow) (qualifies : ReportRow → Bool)
    (w : ReportRow → Rat) (label : ReportRow → ReportRow → String) :
    (∀ c ∈ rankedCategory rows qualifies w label,
      ∃ p ∈ combos2 (rows.filter qualifies),
        c.games = label p.1 p.2 ∧ c.score = (w p.1 + w p.2) / 2) ∧
    (rankedCategory rows qualifies w label).Sorted scoreGE ∧
    (∀ a b c, rows.filter qualifies = [a, b, c] →
      w a = 3 → w b = 3 → w c = 1 →
      rankedCategory rows qualifies w label =
        [{ games := label a b, score := 3 },
         { games := label a c, score := 2 },
         { games := label b c, score := 2 }]) := by
  refine ⟨fun c hc => rankedCategory_mem hc, ?_, ?_⟩
  · unfold rankedCategory
    split
    · exact List.sorted_insertionSort scoreGE _
    · exact List.sorted_nil
  · intro a b c h ha hb hc
    unfold rankedCategory
    rw [h]
    norm_num [combos2, sortByScoreDesc, List.insertionSort, List.orderedInsert,
      scoreGE, ha, hb, hc]

/-- C8 witness: three qualifying rows carrying weights 3, 3, 1 through the
strikeout confidence map produce the ranking [3, 2, 2]. -/
theorem parlay_scores_witness :
    rankedCategory [highKRowA, highKRowB, lowKRow] (fun _ => true)
      (fun g => mapGet confidence_map g.overall_k_confidence) strikeoutPairLabel =
      [{ games := strikeoutPairLabel highKRowA highKRowB, score := 3 },
       { games := strikeoutPairLabel highKRowA lowKRow, score := 2 },
       { games := strikeoutPairLabel highKRowB lowKRow, score := 2 }] :=
  (parlay_scores_and_descending_order [highKRowA, highKRowB, lowKRow] (fun _ => true)
    (fun g => mapGet confidence_map g.overall_k_confidence) strikeoutPairLabel).2.2
    highKRowA highKRowB lowKRow (by decide) (by decide) (by decide) (by decide)

/-! ### C9: total label-to-weight lookup with a defined default -/

lemma mapGet_eq_zero_of_not_mem (m : List (String × Rat)) (k : String)
    (h : k ∉ m.map Prod.fst) : mapGet m k = 0 := by
  induction m with
  | nil => rfl
  | cons p ps ih =>
    simp only [List.map_cons, List.mem_cons] at h
    push_neg at h
    simp only [mapGet]
    rw [if_neg fun e => h.1 e.symm]
    exact ih h.2

/-- C9: each of the three label-to-weight maps is a total function with the
defined default weight 0 for every unmapped label — in particular the
"Neutral" label every confidence/bet column is pre-populated with — so
parlay scoring and sorting are defined on every label. -/
theorem label_weight_lookup_total :
    (∀ s, s ∉ confidence_map.map Prod.fst → mapGet confidence_map s = 0) ∧
    (∀ s, s ∉ nrfi_yrfi_map.map Prod.fst → mapGet nrfi_yrfi_map s = 0) ∧
    (∀ s, s ∉ over_under_map.map Prod.fst → mapGet over_under_map s = 0) ∧
    mapGet confidence_map "Neutral" = 0 ∧
    mapGet nrfi_yrfi_map "Neutral" = 0 ∧
    mapGet over_under_map "Neutral" = 0 :=
  ⟨fun s => mapGet_eq_zero_of_not_mem confidence_map s,
   fun s => mapGet_eq_zero_of_not_mem nrfi_yrfi_map s,
   fun s => mapGet_eq_zero_of_not_mem over_under_map s,
   by decide, by decide, by decide⟩

/-- C9 witness: an arbitrary unexpected label falls back to weight 0. -/
theorem label_weight_lookup_total_witness :
    mapGet confidence_map "Unexpected Label" = 0 ∧
    mapGet over_under_map "HIGH OVER" = 0 :=
  ⟨label_weight_lookup_total.1 "Unexpected Label" (by decide),
   label_weight_lookup_total.2.2.1 "HIGH OVER" (by decide)⟩

/-! ### C10: single-label categories score exactly 3; only YRFI varies -/

lemma combos2_mem {α} {l : List α} {p : α × α} (hp : p ∈ combos2 l) :
    p.1 ∈ l ∧ p.2 ∈ l := by
  induction l with
  | nil => cases hp
  | cons x xs ih =>
    simp only [combos2, List.mem_append, List.mem_map] at hp
    rcases hp with ⟨y, hy, rfl⟩ | hp
    · exact ⟨List.mem_cons_self x xs, List.mem_cons_of_mem x hy⟩
    · exact ⟨List.mem_cons_of_mem x (ih hp).1, List.mem_cons_of_mem x (ih hp).2⟩

lemma rankedCategory_score_const
    (rows : List ReportRow) (qualifies : ReportRow → Bool)
    (w : ReportRow → Rat) (label : ReportRow → ReportRow → String)
    (hw : ∀ g, qualifies g = true → w g = 3) :
    ∀ c ∈ rankedCategory rows qualifies w label, c.score = 3 := by
  intro c hc
  obtain ⟨p, hp, _, hs⟩ := rankedCategory_mem hc
  have h1 := hw p.1 (List.mem_filter.mp (combos2_mem hp).1).2
  have h2 := hw p.2 (List.mem_filter.mp (combos2_mem hp).2).2
  rw [hs, h1, h2]
  norm_num

lemma rankedCategory_score_two_weights
    (rows : List ReportRow) (qualifies : ReportRow → Bool)
    (w : ReportRow → Rat) (label : ReportRow → ReportRow → String)
    (hw : ∀ g, qualifies g = true → w g = 3 ∨ w g = 5/2) :
    ∀ c ∈ rankedCategory rows qualifies w label,
      c.score = 3 ∨ c.score = 11/4 ∨ c.score = 5/2 := by
  intro c hc
  obtain ⟨p, hp, _, hs⟩ := rankedCategory_mem hc
  have h1 := hw p.1 (List.mem_filter.mp (combos2_mem hp).1).2
  have h2 := hw p.2 (List.mem_filter.mp (combos2_mem hp).2).2
  rcases h1 with h1 | h1 <;> rcases h2 with h2 | h2 <;>
    rw [hs, h1, h2] <;> norm_num

lemma strikeout_parlays_sample_eval :
    strikeout_parlays [highKRowA, highKRowB] =
      [{ games := strikeoutPairLabel highKRowA highKRowB, score := 3 }] := by
  norm_num +decide [strikeout_parlays, rankedCategory, combos2, sortByScoreDesc,
    List.insertionSort, List.orderedInsert, scoreGE, mapGet, confidence_map,
    highKRowA, highKRowB]

lemma yrfi_parlays_sample_eval :
    yrfi_parlays [yrfiHighRowA, yrfiHighRowB, yrfiModerateRow] =
      [{ games := "ATL @ PHI (YRFI) & SEA @ HOU (YRFI)", score := 3 },
       { games := "ATL @ PHI (YRFI) & TEX @ OAK (YRFI)", score := 11/4 },
       { games := "SEA @ HOU (YRFI) & TEX @ OAK (YRFI)", score := 11/4 }] := by
  norm_num +decide [yrfi_parlays, rankedCategory, combos2, sortByScoreDesc,
    List.insertionSort, List.orderedInsert, scoreGE, mapGet, nrfi_yrfi_map,
    yrfiHighRowA, yrfiHighRowB, yrfiModerateRow, List.contains, List.elem]

/-- C10: in every single-qualifying-label category — Strikeout (exactly
"High"), NRFI (exactly "High (NRFI)"), and every metric Under/Over category
(exactly "High (Under)"/"High (Over)") — every candidate scores exactly 3,
because every qualifying row carries a weight-3 label; only the YRFI
category, which admits both "High (YRFI)" (weight 3) and
"Moderate (leaning YRFI)" (weight 5/2), can produce candidates with distinct
scores (3, 11/4 or 5/2), and it actually does. -/
theorem single_label_parlays_score_three (rows : List ReportRow) :
    (∀ c ∈ strikeout_parlays rows, c.score = 3) ∧
    (∀ c ∈ nrfi_parlays rows, c.score = 3) ∧
    (∀ (conf : ReportRow → String) (metric : String),
      ∀ c ∈ under_parlays conf metric rows, c.score = 3) ∧
    (∀ (conf : ReportRow → String) (metric : String),
      ∀ c ∈ over_parlays conf metric rows, c.score = 3) ∧
    (∀ c ∈ yrfi_parlays rows, c.score = 3 ∨ c.score = 11/4 ∨ c.score = 5/2) ∧
    (∃ (rows2 : List ReportRow) (c1 c2 : ParlayCandidate),
      c1 ∈ yrfi_parlays rows2 ∧ c2 ∈ yrfi_parlays rows2 ∧ c1.score ≠ c2.score) := by
  refine ⟨?_, ?_, ?_, ?_, ?_, ?_⟩
  · refine rankedCategory_score_const rows _ _ _ fun g hg => ?_
    have h : g.overall_k_confidence = "High" := by simpa using hg
    simp only [h]
    rfl
  · refine rankedCategory_score_const rows _ _ _ fun g hg => ?_
    have h : g.overall_nrfi_yrfi_confidence = "High (NRFI)" := by simpa using hg
    simp only [h]
    rfl
  · intro conf metric
    refine rankedCategory_score_const rows _ _ _ fun g hg => ?_
    have h : conf g = "High (Under)" := by simpa using hg
    simp only [h]
    rfl
  · intro conf metric
    refine rankedCategory_score_const rows _ _ _ fun g hg => ?_
    have h : conf g = "High (Over)" := by simpa using hg
    simp only [h]
    rfl
  · refine rankedCategory_score_two_weights rows _ _ _ fun g hg => ?_
    have h : g.overall_nrfi_yrfi_confidence = "High (YRFI)" ∨
        g.overall_nrfi_yrfi_confidence = "Moderate (leaning YRFI)" := by
      simpa using hg
    rcases h with h | h
    · left
      simp only [h]
      rfl
    · right
      simp only [h]
      rfl
  · refine ⟨[yrfiHighRowA, yrfiHighRowB, yrfiModerateRow],
      ⟨"ATL @ PHI (YRFI) & SEA @ HOU (YRFI)", 3⟩,
      ⟨"ATL @ PHI (YRFI) & TEX @ OAK (YRFI)", 11/4⟩, ?_, ?_, ?_⟩
    · rw [yrfi_parlays_sample_eval]
      simp
    · rw [yrfi_parlays_sample_eval]
      simp
    · norm_num

/-- C10 witness: the single candidate of a two-row Strikeout category has
score exactly 3. -/
theorem single_label_parlays_witness :
    ({ games := strikeoutPairLabel highKRowA highKRowB, score := 3 } :
      ParlayCandidate).score = 3 :=
  (single_label_parlays_score_three [highKRowA, highKRowB]).1 _ (by
    rw [strikeout_parlays_sample_eval]
    simp)

end MLB
